import Mathlib

/-!
Verification of the local transfer-actor write-payment path of the
safe_client_libs repository.

The visible source is `src/client/transfer_actor/write_apis.rs` (the
`Client::apply_write_payment_to_local_actor` function and its test) and the
stress-test example `safe_app/examples/client_stress_test.rs`.  The transfer
actor itself (`sn_transfers`), the write-payment coordinator and the
`pay_and_write_sequence_to_network` facade are not part of the visible source;
where a property depends on them they are modelled from the specification, and
each such definition is marked in its doc comment.

The mutex-guarded actor of the Rust code is embedded by explicit state
passing: the actor value is threaded through `register` and `apply`, and the
whole function body is one critical section.  An instrumented variant records
the trace of lock and actor operations so that temporal and concurrency
properties can be stated.
-/

/-- A network-issued credential asserting that a specific debit (sender
account, sequence number, amount) has been accepted by network consensus
(spec §3, `AgreementProof`).  The `valid` flag models the structural validity
of the opaque signature material. -/
structure TransferAgreementProof where
  sender : Nat
  seq : Nat
  amount : Nat
  valid : Bool
  deriving DecidableEq

/-- The event produced by a successful `register` of a proof; it records the
proof it was derived from (spec §3, `ActorEvent`). -/
structure RegisterEvent where
  transfer_proof : TransferAgreementProof
  deriving DecidableEq

/-- Errors of the transfer layer.  `InsufficientBalance` appears in the test
`transfer_actor_with_no_balance_cannot_store_data`; the other variants model
the validation and ordering errors described in spec §4.2 and §7. -/
inductive TransfersError where
  | InsufficientBalance
  | InvalidProof
  | OperationOutOfOrder
  deriving DecidableEq

/-- The client error type of `crate::errors::Error`, restricted to the
variants visible in the source: `NoTransferEventsForLocalActor` and
`Transfer` wrapping a transfer-layer error. -/
inductive Error where
  | NoTransferEventsForLocalActor
  | Transfer (e : TransfersError)
  deriving DecidableEq

/-- The `sn_transfers::ActorEvent` enum as used by the write path: the source
wraps the register event in `ActorEvent::TransferRegistrationSent`.  A second
variant models the other event kinds of the actor interface, so that the
statement that the write path only ever applies registration events is not
vacuous. -/
inductive ActorEvent where
  | TransferRegistrationSent (event : RegisterEvent)
  | TransfersSynched (balance : Nat) (seqNum : Nat)
  deriving DecidableEq

/-- The type of the actor's `register` operation: it takes the actor state and
a proof and returns the optional event together with the (possibly updated)
actor state, or an error (spec §6). -/
def RegisterFn (α : Type) : Type :=
  α → TransferAgreementProof → Except Error (Option RegisterEvent × α)

/-- The type of the actor's `apply` operation: it commits an event into the
actor state or fails (spec §6). -/
def ApplyFn (α : Type) : Type :=
  α → ActorEvent → Except Error α

/-- Shallow embedding of `Client::apply_write_payment_to_local_actor`
(src/client/transfer_actor/write_apis.rs, lines 10-23).  The locked actor is
the explicit state value `actor`; `register` and `apply` are the operations of
the locked actor.  The control flow mirrors the source: `register` with the
debit proof (the `?` propagating its error), `ok_or` turning a `None` result
into `Error::NoTransferEventsForLocalActor`, then `apply` of the event wrapped
in `ActorEvent::TransferRegistrationSent` (the `?` propagating its error), and
finally success. -/
def apply_write_payment_to_local_actor {α : Type} (register : RegisterFn α)
    (apply : ApplyFn α) (actor : α) (debit_proof : TransferAgreementProof) :
    Except Error α :=
  match register actor debit_proof with
  | .error e => .error e
  | .ok (none, _) => .error Error.NoTransferEventsForLocalActor
  | .ok (some register_event, actor1) =>
      match apply actor1 (ActorEvent.TransferRegistrationSent register_event) with
      | .error e => .error e
      | .ok actor2 => .ok actor2

/-- Equality of `Except` results is decidable when it is on both sides. -/
instance exceptDecidableEq {ε α : Type} [DecidableEq ε] [DecidableEq α] :
    DecidableEq (Except ε α) := fun a b =>
  match a, b with
  | Except.error e1, Except.error e2 =>
      if h : e1 = e2 then Decidable.isTrue (by rw [h])
      else Decidable.isFalse (by simp [h])
  | Except.error _, Except.ok _ => Decidable.isFalse (by simp)
  | Except.ok _, Except.error _ => Decidable.isFalse (by simp)
  | Except.ok a1, Except.ok a2 =>
      if h : a1 = a2 then Decidable.isTrue (by rw [h])
      else Decidable.isFalse (by simp [h])

/-- One observable step of an invocation of the write path: taking the
actor's mutual-exclusion lock, calling `register`, calling `apply`, or the
lock being released when the guard is dropped. -/
inductive TraceEntry where
  | lockAcquire
  | registerCall (proof : TransferAgreementProof)
      (result : Except Error (Option RegisterEvent))
  | applyCall (event : ActorEvent) (result : Except Error Unit)
  | lockRelease
  deriving DecidableEq

/-- Instrumented embedding of `Client::apply_write_payment_to_local_actor`:
the same control flow as `apply_write_payment_to_local_actor`, paired with the
trace of lock and actor operations the invocation performs.  The lock is taken
first (`self.transfer_actor.lock().await`) and the guard is dropped on every
exit path, including the early `?` returns. -/
def apply_write_payment_traced {α : Type} (register : RegisterFn α)
    (apply : ApplyFn α) (actor : α) (debit_proof : TransferAgreementProof) :
    Except Error α × List TraceEntry :=
  match register actor debit_proof with
  | .error e =>
      (.error e,
        [TraceEntry.lockAcquire, TraceEntry.registerCall debit_proof (.error e),
          TraceEntry.lockRelease])
  | .ok (none, _) =>
      (.error Error.NoTransferEventsForLocalActor,
        [TraceEntry.lockAcquire, TraceEntry.registerCall debit_proof (.ok none),
          TraceEntry.lockRelease])
  | .ok (some register_event, actor1) =>
      match apply actor1 (ActorEvent.TransferRegistrationSent register_event) with
      | .error e =>
          (.error e,
            [TraceEntry.lockAcquire,
              TraceEntry.registerCall debit_proof (.ok (some register_event)),
              TraceEntry.applyCall
                (ActorEvent.TransferRegistrationSent register_event) (.error e),
              TraceEntry.lockRelease])
      | .ok actor2 =>
          (.ok actor2,
            [TraceEntry.lockAcquire,
              TraceEntry.registerCall debit_proof (.ok (some register_event)),
              TraceEntry.applyCall
                (ActorEvent.TransferRegistrationSent register_event) (.ok ()),
              TraceEntry.lockRelease])

/-- Modelled from the spec: the `LocalActorState` of the Local Transfer Actor
(spec §3).  The actor implementation lives in the external `sn_transfers`
crate and is not part of the visible source; following the spec it holds the
current committed balance and the most-recently-applied sequence number. -/
structure TransferActor where
  balance : Nat
  seqNum : Nat
  deriving DecidableEq

/-- Modelled from the spec: the actor's `register` operation (spec §4.2),
whose implementation is in the external `sn_transfers` crate.  A structurally
invalid proof is an error; a proof whose sequence number is the immediate
successor of the current state matches the pending claim and yields an event;
any other sequence number (stale, duplicate, or unrelated) yields `None`,
which is not an error ("nothing to do here").  `register` itself mutates
nothing. -/
def TransferActor.register (a : TransferActor) (proof : TransferAgreementProof) :
    Except Error (Option RegisterEvent × TransferActor) :=
  if proof.valid = false then Except.error (Error.Transfer TransfersError.InvalidProof)
  else if proof.seq = a.seqNum + 1 then Except.ok (some ⟨proof⟩, a)
  else Except.ok (none, a)

/-- Modelled from the spec: the actor's `apply` operation (spec §4.2), whose
implementation is in the external `sn_transfers` crate.  The event's sequence
number must be the immediate successor of the current state, otherwise the
event is rejected with an ordering-violation error; on success the balance is
decreased by the debit amount and the sequence number advances, in one step.
The spec describes `apply` only for registration events, so any other event
kind is rejected. -/
def TransferActor.apply (a : TransferActor) (event : ActorEvent) :
    Except Error TransferActor :=
  match event with
  | ActorEvent.TransferRegistrationSent re =>
      if re.transfer_proof.seq = a.seqNum + 1 then
        Except.ok ⟨a.balance - re.transfer_proof.amount, re.transfer_proof.seq⟩
      else Except.error (Error.Transfer TransfersError.OperationOutOfOrder)
  | ActorEvent.TransfersSynched _ _ =>
      Except.error (Error.Transfer TransfersError.OperationOutOfOrder)

/-- A sequence of `apply` calls on the modelled actor, stopping at the first
failure. -/
def applyAll : TransferActor → List ActorEvent → Except Error TransferActor
  | a, [] => Except.ok a
  | a, ev :: evs =>
      match a.apply ev with
      | Except.error e => Except.error e
      | Except.ok a1 => applyAll a1 evs

/-- Modelled from the spec: the network round trip that submits a
`DebitRequest` and returns an `AgreementProof` or an error when the
network-side balance check fails (spec §4.3 and §6); the network layer is an
external collaborator and not part of the visible source.  The proof issued
for a debit of `amount` carries the next sequence number of the account. -/
def request_debit_proof (a : TransferActor) (amount : Nat) :
    Except Error TransferAgreementProof :=
  if amount ≤ a.balance then Except.ok ⟨0, a.seqNum + 1, amount, true⟩
  else Except.error (Error.Transfer TransfersError.InsufficientBalance)

/-- The data value stored by `pay_and_write_sequence_to_network` in the test:
a public `Sequence` with an owner, a name and a type tag. -/
structure SequenceData where
  authority : Nat
  name : Nat
  tag : Nat
  deriving DecidableEq

/-- Modelled from the spec: the `pay_and_write_sequence_to_network` facade
exercised by the test `transfer_actor_with_no_balance_cannot_store_data`; its
implementation is not part of the visible source.  Following spec §4.3 and
§4.4 it requests a debit for the operation cost, commits the returned proof
locally through `apply_write_payment_to_local_actor`, and only then performs
the external data write.  The list of data writes performed is returned on
every path, so that the absence of a write on failure paths is visible. -/
def pay_and_write_sequence_to_network (a : TransferActor) (cost : Nat)
    (data : SequenceData) :
    Except Error (TransferActor × SequenceData) × List SequenceData :=
  match request_debit_proof a cost with
  | Except.error e => (Except.error e, [])
  | Except.ok proof =>
      match apply_write_payment_to_local_actor TransferActor.register
          TransferActor.apply a proof with
      | Except.error e => (Except.error e, [])
      | Except.ok a1 => (Except.ok (a1, data), [data])

/-- A freshly created client's actor: the test creates a new keypair and a new
client, whose account balance is zero and whose sequence counter starts at
zero (spec §3: created at session start with balance unknown-or-zero). -/
def freshActor : TransferActor := ⟨0, 0⟩

/-- Modelled from the spec: the per-write-attempt states of the Write-Payment
Coordinator (spec §4.3); the coordinator is not part of the visible source. -/
inductive CoordState where
  | Idle
  | DebitRequested
  | ProofReceived
  | Registered
  | Applied
  | PaidWriteAuthorized
  | Failed (e : Error)
  deriving DecidableEq

/-- Modelled from the spec: the transition relation of the Write-Payment
Coordinator state machine (spec §4.3).  Failure transitions lead to `Failed`
from the intermediate states on network or validation errors; `Failed` and
`PaidWriteAuthorized` are terminal for the attempt. -/
inductive CoordStep : CoordState → CoordState → Prop where
  | requestDebit : CoordStep CoordState.Idle CoordState.DebitRequested
  | receiveProof : CoordStep CoordState.DebitRequested CoordState.ProofReceived
  | networkFailure (e : TransfersError) :
      CoordStep CoordState.DebitRequested (CoordState.Failed (Error.Transfer e))
  | registerSome : CoordStep CoordState.ProofReceived CoordState.Registered
  | registerNone :
      CoordStep CoordState.ProofReceived
        (CoordState.Failed Error.NoTransferEventsForLocalActor)
  | registerFailure (e : Error) :
      CoordStep CoordState.ProofReceived (CoordState.Failed e)
  | applySuccess : CoordStep CoordState.Registered CoordState.Applied
  | applyFailure (e : Error) :
      CoordStep CoordState.Registered (CoordState.Failed e)
  | authorizeWrite : CoordStep CoordState.Applied CoordState.PaidWriteAuthorized

/-- A path through the coordinator state machine, recorded as the list of
states visited (first state first). -/
inductive CoordPath : CoordState → CoordState → List CoordState → Prop where
  | refl (s : CoordState) : CoordPath s s [s]
  | step {s t u : CoordState} {l : List CoordState} :
      CoordStep s t → CoordPath t u l → CoordPath s u (s :: l)

/-- Whether the external data-write step may proceed in a given coordinator
state: only in the terminal success state `PaidWriteAuthorized` (spec §4.3 and
§4.4). -/
def writeAllowed : CoordState → Bool
  | CoordState.PaidWriteAuthorized => true
  | _ => false

/-- A public immutable chunk of the stress-test example: the network address
it is stored under and its content. -/
structure IData where
  address : Nat
  payload : List Nat
  deriving DecidableEq

/-- A sequenced mutable-data record of the stress-test example, addressed by
name and type tag. -/
structure SeqMutableData where
  name : Nat
  tag : Nat
  entries : List (Nat × Nat)
  deriving DecidableEq

/-- The error type of the external client operations in the stress-test
example (`safe_core`'s `CoreError`, out of scope; only its existence
matters). -/
inductive CoreError where
  | requestFailed (code : Nat)
  deriving DecidableEq

/-- The outcome type of the stress-test put helpers: either an error of the
external client, or a failure of the `assert_eq!` that compares the data that
was put with the data a subsequent get retrieved (a panic in the source,
modelled as an error value). -/
inductive StressTestError where
  | core (e : CoreError)
  | assertionFailed
  deriving DecidableEq

/-- The external client's `put_idata` operation: stores a chunk, updating the
network state. -/
def PutIDataFn (net : Type) : Type := net → IData → Except CoreError net

/-- The external client's `get_idata` operation: retrieves the chunk stored at
an address. -/
def GetIDataFn (net : Type) : Type := net → Nat → Except CoreError IData

/-- The external client's `put_seq_mutable_data` operation. -/
def PutMDataFn (net : Type) : Type := net → SeqMutableData → Except CoreError net

/-- The external client's `get_seq_mdata_shell` operation, keyed by name and
type tag. -/
def GetMDataShellFn (net : Type) : Type :=
  net → Nat → Nat → Except CoreError SeqMutableData

/-- Shallow embedding of `put_idata` in
safe_app/examples/client_stress_test.rs (lines 263-286): put the chunk, get it
back by its address, `assert_eq!` the retrieved data against the data that was
put (the panic is `StressTestError.assertionFailed`), and return the retrieved
data.  The external client is the pair of `put` and `get` parameters and the
network state is threaded explicitly. -/
def put_idata {net : Type} (put : PutIDataFn net) (get : GetIDataFn net)
    (n0 : net) (data : IData) : Except StressTestError (net × IData) :=
  match put n0 data with
  | Except.error e => Except.error (StressTestError.core e)
  | Except.ok n1 =>
      match get n1 data.address with
      | Except.error e => Except.error (StressTestError.core e)
      | Except.ok retrieved_data =>
          if data = retrieved_data then Except.ok (n1, retrieved_data)
          else Except.error StressTestError.assertionFailed

/-- Shallow embedding of `put_mdata` in
safe_app/examples/client_stress_test.rs (lines 288-316): put the record, get
its shell back by name and tag, `assert_eq!` it against the data that was put,
and return the retrieved data. -/
def put_mdata {net : Type} (put : PutMDataFn net) (get : GetMDataShellFn net)
    (n0 : net) (data : SeqMutableData) :
    Except StressTestError (net × SeqMutableData) :=
  match put n0 data with
  | Except.error e => Except.error (StressTestError.core e)
  | Except.ok n1 =>
      match get n1 data.name data.tag with
      | Except.error e => Except.error (StressTestError.core e)
      | Except.ok retrieved_data =>
          if data = retrieved_data then Except.ok (n1, retrieved_data)
          else Except.error StressTestError.assertionFailed

/-- Whether a trace entry is a `register` call. -/
def TraceEntry.isRegisterCall : TraceEntry → Bool
  | TraceEntry.registerCall _ _ => true
  | _ => false

/-- Whether a trace entry is an `apply` call. -/
def TraceEntry.isApplyCall : TraceEntry → Bool
  | TraceEntry.applyCall _ _ => true
  | _ => false

/-- Tag every entry of a task's trace with the task's identity, for reasoning
about interleavings of two concurrent invocations. -/
def tagTrace (i : Bool) (l : List TraceEntry) : List (Bool × TraceEntry) :=
  l.map fun e => (i, e)

/-- An interleaving of two tagged traces: the merged schedule keeps the
relative order of each task's entries. -/
inductive Interleaving {β : Type} : List β → List β → List β → Prop where
  | nil : Interleaving [] [] []
  | left {xs ys zs : List β} (x : β) :
      Interleaving xs ys zs → Interleaving (x :: xs) ys (x :: zs)
  | right {xs ys zs : List β} (y : β) :
      Interleaving xs ys zs → Interleaving xs (y :: ys) (y :: zs)

/-- The semantics of the actor's mutual-exclusion lock over a tagged schedule:
`holder` is the task currently holding the lock.  Acquiring requires the lock
to be free, releasing requires holding it, and an actor operation (a
`register` or `apply` call) may only be performed by the task holding the
lock. -/
def lockValid : Option Bool → List (Bool × TraceEntry) → Bool
  | _, [] => true
  | holder, (i, TraceEntry.lockAcquire) :: rest =>
      match holder with
      | none => lockValid (some i) rest
      | some _ => false
  | holder, (i, TraceEntry.lockRelease) :: rest =>
      match holder with
      | some j => i == j && lockValid none rest
      | none => false
  | holder, (i, _) :: rest =>
      match holder with
      | some j => i == j && lockValid holder rest
      | none => false

/-- A concrete actor state used as a test vector: balance 1000, no event
applied yet (spec §8, Scenario B). -/
def actorScenarioB : TransferActor := ⟨1000, 0⟩

/-- A concrete debit proof used as a test vector: a valid proof for sequence
number 1 debiting 1 unit (spec §8, Scenario B). -/
def proofScenarioB : TransferAgreementProof := ⟨7, 1, 1, true⟩

/-- A concrete sequence record used as a test vector for the funded-write
path, mirroring the test data of
`transfer_actor_with_no_balance_cannot_store_data`. -/
def sampleSequenceData : SequenceData := ⟨1, 2, 33323⟩

/-- A two-slot network used as a test vector for the stress-test helpers: it
remembers the last immutable chunk and the last mutable record that were
put. -/
abbrev SlotNet : Type := Option IData × Option SeqMutableData

/-- Storing an immutable chunk in the two-slot network. -/
def slotPutIData : PutIDataFn SlotNet := fun n d => Except.ok (some d, n.snd)

/-- Retrieval from the two-slot network: returns the remembered chunk, or
fails when nothing was put. -/
def slotGetIData : GetIDataFn SlotNet := fun n _ =>
  match n.fst with
  | some d => Except.ok d
  | none => Except.error (CoreError.requestFailed 0)

/-- Storing a mutable record in the two-slot network. -/
def slotPutMData : PutMDataFn SlotNet := fun n d => Except.ok (n.fst, some d)

/-- Retrieval of the remembered mutable record's shell. -/
def slotGetMDataShell : GetMDataShellFn SlotNet := fun n _ _ =>
  match n.snd with
  | some d => Except.ok d
  | none => Except.error (CoreError.requestFailed 1)

/-- A concrete immutable chunk used as a test vector. -/
def sampleIData : IData := ⟨5, [1, 2, 3]⟩

/-- A concrete mutable record used as a test vector. -/
def sampleMData : SeqMutableData := ⟨9, 100000, []⟩

/-- The instrumented embedding computes the same result as the plain one. -/
theorem apply_write_payment_traced_fst {α : Type} (register : RegisterFn α)
    (apply : ApplyFn α) (actor : α) (debit_proof : TransferAgreementProof) :
    (apply_write_payment_traced register apply actor debit_proof).fst =
      apply_write_payment_to_local_actor register apply actor debit_proof := by
  unfold apply_write_payment_traced apply_write_payment_to_local_actor
  rcases hr : register actor debit_proof with e | ⟨opt, actor1⟩
  · rfl
  · rcases opt with _ | ev
    · rfl
    · rcases ha : apply actor1 (ActorEvent.TransferRegistrationSent ev) with e | a2 <;>
        simp [ha]

/-- Claim C1: for every debit proof, `apply_write_payment_to_local_actor`
succeeds exactly when the actor's `register` returns `Ok(Some(event))` and the
subsequent `apply` of that event succeeds; when `register` returns `Ok(None)`
the result is `Err(NoTransferEventsForLocalActor)`; and an error of `register`
or of `apply` is propagated to the caller unchanged, never swallowed. -/
theorem write_payment_result_characterisation {α : Type} (register : RegisterFn α)
    (apply : ApplyFn α) (actor : α) (p : TransferAgreementProof) :
    ((∃ a2, apply_write_payment_to_local_actor register apply actor p =
        Except.ok a2) ↔
      ∃ ev a1 a2, register actor p = Except.ok (some ev, a1) ∧
        apply a1 (ActorEvent.TransferRegistrationSent ev) = Except.ok a2)
    ∧ (∀ a1, register actor p = Except.ok (none, a1) →
        apply_write_payment_to_local_actor register apply actor p =
          Except.error Error.NoTransferEventsForLocalActor)
    ∧ (∀ e, register actor p = Except.error e →
        apply_write_payment_to_local_actor register apply actor p =
          Except.error e)
    ∧ (∀ ev a1 e, register actor p = Except.ok (some ev, a1) →
        apply a1 (ActorEvent.TransferRegistrationSent ev) = Except.error e →
        apply_write_payment_to_local_actor register apply actor p =
          Except.error e) := by
  unfold apply_write_payment_to_local_actor
  rcases hr : register actor p with e | ⟨opt, a1⟩
  · simp
  · rcases opt with _ | ev
    · simp
    · rcases ha : apply a1 (ActorEvent.TransferRegistrationSent ev) with e | a2 <;>
        simp [ha]
      · rintro ev1 a11 e1 rfl rfl h
        rw [ha] at h
        simpa using h
      · refine ⟨⟨ev, a1, ⟨rfl, rfl⟩, a2, ha⟩, ?_⟩
        rintro ev1 a11 e1 rfl rfl h
        rw [ha] at h
        simp at h

/-- Witness for claim C1 on Scenario B data: with the modelled actor at
balance 1000 and a valid proof for sequence 1, the write path succeeds, and on
the fresh zero-balance actor the same proof still registers (sequence 1 is
next) so the success clause applies as well; here we instantiate the `Ok
None` clause at a stale proof. -/
theorem write_payment_result_characterisation_witness :
    apply_write_payment_to_local_actor TransferActor.register TransferActor.apply
      (⟨999, 1⟩ : TransferActor) proofScenarioB =
      Except.error Error.NoTransferEventsForLocalActor :=
  (write_payment_result_characterisation TransferActor.register
    TransferActor.apply ⟨999, 1⟩ proofScenarioB).2.1 ⟨999, 1⟩ (by decide)

/-- Claim C2: in every execution of the write path, `apply` is invoked only
with the event produced by a successful `register` of the same debit proof in
the same invocation; when `register` errors or returns `Ok(None)`, no `apply`
call appears in the trace, so the actor state is not mutated by `apply` on
those paths. -/
theorem write_payment_apply_only_registered {α : Type} (register : RegisterFn α)
    (apply : ApplyFn α) (actor : α) (p : TransferAgreementProof) :
    (∀ ev r, TraceEntry.applyCall ev r ∈
        (apply_write_payment_traced register apply actor p).snd →
      ∃ re a1, register actor p = Except.ok (some re, a1) ∧
        ev = ActorEvent.TransferRegistrationSent re)
    ∧ (∀ e, register actor p = Except.error e →
        ∀ ev r, TraceEntry.applyCall ev r ∉
          (apply_write_payment_traced register apply actor p).snd)
    ∧ (∀ a1, register actor p = Except.ok (none, a1) →
        ∀ ev r, TraceEntry.applyCall ev r ∉
          (apply_write_payment_traced register apply actor p).snd) := by
  unfold apply_write_payment_traced
  rcases hr : register actor p with e | ⟨opt, a1⟩
  · simp
  · rcases opt with _ | ev
    · simp
    · rcases ha : apply a1 (ActorEvent.TransferRegistrationSent ev) with e | a2 <;>
        simp [ha]

/-- Witness for claim C2: on the Scenario B actor and proof the register call
succeeds, the trace has an `apply` call, and that call carries the
registration event produced by `register`. -/
theorem write_payment_apply_only_registered_witness :
    ∃ re a1, TransferActor.register actorScenarioB proofScenarioB =
        Except.ok (some re, a1) ∧
      ActorEvent.TransferRegistrationSent (⟨proofScenarioB⟩ : RegisterEvent) =
        ActorEvent.TransferRegistrationSent re :=
  (write_payment_apply_only_registered TransferActor.register
      TransferActor.apply actorScenarioB proofScenarioB).1
    (ActorEvent.TransferRegistrationSent ⟨proofScenarioB⟩) (Except.ok ())
    (by decide)

/-- Claim C9: every event the write path passes to the actor's `apply` is the
`ActorEvent.TransferRegistrationSent` wrapping of the event returned by
`register`; no other `ActorEvent` variant is ever applied by
`apply_write_payment_to_local_actor`. -/
theorem write_payment_applies_only_registration_events {α : Type}
    (register : RegisterFn α) (apply : ApplyFn α) (actor : α)
    (p : TransferAgreementProof) :
    ∀ ev r, TraceEntry.applyCall ev r ∈
        (apply_write_payment_traced register apply actor p).snd →
      (∃ re, ev = ActorEvent.TransferRegistrationSent re ∧
        ∃ a1, register actor p = Except.ok (some re, a1))
      ∧ ∀ b s, ev ≠ ActorEvent.TransfersSynched b s := by
  unfold apply_write_payment_traced
  rcases hr : register actor p with e | ⟨opt, a1⟩
  · simp
  · rcases opt with _ | ev
    · simp
    · rcases ha : apply a1 (ActorEvent.TransferRegistrationSent ev) with e | a2 <;>
        simp [ha]

/-- Witness for claim C9: the event applied in the Scenario B run is a
`TransferRegistrationSent` wrapping of the registered event, and is not a
`TransfersSynched` event. -/
theorem write_payment_applies_only_registration_events_witness :
    (∃ re, ActorEvent.TransferRegistrationSent (⟨proofScenarioB⟩ : RegisterEvent) =
        ActorEvent.TransferRegistrationSent re ∧
      ∃ a1, TransferActor.register actorScenarioB proofScenarioB =
        Except.ok (some re, a1))
    ∧ ∀ b s, ActorEvent.TransferRegistrationSent (⟨proofScenarioB⟩ : RegisterEvent) ≠
        ActorEvent.TransfersSynched b s :=
  write_payment_applies_only_registration_events TransferActor.register
    TransferActor.apply actorScenarioB proofScenarioB
    (ActorEvent.TransferRegistrationSent ⟨proofScenarioB⟩) (Except.ok ())
    (by decide)

/-- Claim C8: within a single invocation of the write path, `register` is
called exactly once and `apply` at most once; after a failed `register` no
`apply` (and no second `register`) happens, so there is no automatic retry:
the failure surfaces immediately. -/
theorem write_payment_no_retry {α : Type} (register : RegisterFn α)
    (apply : ApplyFn α) (actor : α) (p : TransferAgreementProof) :
    ((apply_write_payment_traced register apply actor p).snd.countP
        TraceEntry.isRegisterCall = 1)
    ∧ ((apply_write_payment_traced register apply actor p).snd.countP
        TraceEntry.isApplyCall ≤ 1)
    ∧ (∀ e, register actor p = Except.error e →
        (apply_write_payment_traced register apply actor p).snd.countP
          TraceEntry.isApplyCall = 0) := by
  unfold apply_write_payment_traced
  rcases hr : register actor p with e | ⟨opt, a1⟩
  · simp [List.countP, List.countP.go, TraceEntry.isRegisterCall,
      TraceEntry.isApplyCall]
  · rcases opt with _ | ev
    · simp [List.countP, List.countP.go, TraceEntry.isRegisterCall,
        TraceEntry.isApplyCall]
    · rcases ha : apply a1 (ActorEvent.TransferRegistrationSent ev) with e | a2 <;>
        simp [ha, List.countP, List.countP.go, TraceEntry.isRegisterCall,
          TraceEntry.isApplyCall]

/-- Witness for claim C8: with the modelled actor on an invalid proof,
`register` fails and the trace contains no `apply` call. -/
theorem write_payment_no_retry_witness :
    (apply_write_payment_traced TransferActor.register TransferActor.apply
        actorScenarioB ⟨7, 1, 1, false⟩).snd.countP TraceEntry.isApplyCall = 0 :=
  (write_payment_no_retry TransferActor.register TransferActor.apply
      actorScenarioB ⟨7, 1, 1, false⟩).2.2
    (Error.Transfer TransfersError.InvalidProof) (by decide)

/-- An interleaving whose left component is exhausted is the right trace. -/
theorem interleaving_nil_left {β : Type} : ∀ {xs ys zs : List β},
    Interleaving xs ys zs → xs = [] → zs = ys := by
  intro xs ys zs h
  induction h with
  | nil => intro _; rfl
  | left x _ _ => intro hx; exact absurd hx (by simp)
  | right y _ ih => intro hx; rw [ih hx]

/-- Putting one whole trace before another is an interleaving. -/
theorem interleaving_append {β : Type} (xs ys : List β) :
    Interleaving xs ys (xs ++ ys) := by
  induction xs with
  | nil =>
      induction ys with
      | nil => exact Interleaving.nil
      | cons y ys ih => exact Interleaving.right y ih
  | cons x xs ih => exact Interleaving.left x ih

/-- Interleaving is symmetric in its two input traces. -/
theorem interleaving_symm {β : Type} {xs ys zs : List β}
    (h : Interleaving xs ys zs) : Interleaving ys xs zs := by
  induction h with
  | nil => exact Interleaving.nil
  | left x _ ih => exact Interleaving.right x ih
  | right y _ ih => exact Interleaving.left y ih

/-- While a task holds the lock, a lock-respecting schedule must run that
task's remaining critical section (its actor operations and its release) to
completion before any entry of a task whose next step is an acquire. -/
theorem interleaving_absorb (i : Bool) :
    ∀ (mid : List TraceEntry) (rest ys z : List (Bool × TraceEntry)),
      (∀ x ∈ mid, x ≠ TraceEntry.lockAcquire ∧ x ≠ TraceEntry.lockRelease) →
      (ys = [] ∨ ∃ j r, ys = (j, TraceEntry.lockAcquire) :: r) →
      Interleaving (mid.map (fun e => (i, e)) ++ (i, TraceEntry.lockRelease) :: rest)
        ys z →
      lockValid (some i) z = true →
      ∃ z1, z = mid.map (fun e => (i, e)) ++ (i, TraceEntry.lockRelease) :: z1 ∧
        Interleaving rest ys z1 ∧ lockValid none z1 = true := by
  intro mid
  induction mid with
  | nil =>
      intro rest ys z hmid hys h hv
      simp only [List.map_nil, List.nil_append] at h
      cases h with
      | left x h1 =>
          simp only [lockValid] at hv
          simp only [List.map_nil, List.nil_append]
          exact ⟨_, rfl, h1, by simpa using hv⟩
      | right y h1 =>
          rcases hys with hys | ⟨j, r, hys⟩
          · exact absurd hys (by simp)
          · injection hys with hy hr1
            subst hy
            simp [lockValid] at hv
  | cons m mid ih =>
      intro rest ys z hmid hys h hv
      simp only [List.map_cons, List.cons_append] at h
      cases h with
      | left x h1 =>
          rcases hmid m (by simp) with ⟨hma, hmr⟩
          have hv1 : lockValid (some i) _ = true := hv
          cases m with
          | lockAcquire => exact absurd rfl hma
          | lockRelease => exact absurd rfl hmr
          | registerCall q res =>
              simp only [lockValid, beq_self_eq_true, Bool.true_and] at hv
              rcases ih rest ys _ (fun x hx => hmid x (by simp [hx])) hys h1 hv with
                ⟨z1, hz, hint, hvz⟩
              exact ⟨z1, by simp [hz], hint, hvz⟩
          | applyCall ev res =>
              simp only [lockValid, beq_self_eq_true, Bool.true_and] at hv
              rcases ih rest ys _ (fun x hx => hmid x (by simp [hx])) hys h1 hv with
                ⟨z1, hz, hint, hvz⟩
              exact ⟨z1, by simp [hz], hint, hvz⟩
      | right y h1 =>
          rcases hys with hys | ⟨j, r, hys⟩
          · exact absurd hys (by simp)
          · injection hys with hy hr1
            subst hy
            simp [lockValid] at hv

/-- The trace of every invocation of the write path starts by acquiring the
lock, ends by releasing it, and contains no other lock event: the whole body
is one critical section, released on every exit path. -/
theorem apply_write_payment_trace_shape {α : Type} (register : RegisterFn α)
    (apply : ApplyFn α) (actor : α) (p : TransferAgreementProof) :
    ∃ ops, (apply_write_payment_traced register apply actor p).snd =
        TraceEntry.lockAcquire :: ops ++ [TraceEntry.lockRelease]
      ∧ ∀ x ∈ ops, x ≠ TraceEntry.lockAcquire ∧ x ≠ TraceEntry.lockRelease := by
  unfold apply_write_payment_traced
  rcases hr : register actor p with e | ⟨opt, a1⟩
  · exact ⟨[TraceEntry.registerCall p (Except.error e)], rfl, by simp⟩
  · rcases opt with _ | ev
    · exact ⟨[TraceEntry.registerCall p (Except.ok none)], rfl, by simp⟩
    · rcases ha : apply a1 (ActorEvent.TransferRegistrationSent ev) with e | a2
      · exact ⟨[TraceEntry.registerCall p (Except.ok (some ev)),
          TraceEntry.applyCall (ActorEvent.TransferRegistrationSent ev)
            (Except.error e)], by simp [ha], by simp⟩
      · exact ⟨[TraceEntry.registerCall p (Except.ok (some ev)),
          TraceEntry.applyCall (ActorEvent.TransferRegistrationSent ev)
            (Except.ok ())], by simp [ha], by simp⟩

/-- Claim C3: in every invocation of the write path the actor's
mutual-exclusion lock is acquired before `register`, held continuously across
`register` and `apply` as one critical section, and released only at function
exit on every path; consequently, in any lock-respecting schedule of two
invocations, the two critical sections are fully serialised, so no operation
of the other task is interleaved between the `register` and `apply` of one
write attempt. -/
theorem write_payment_lock_critical_section {α : Type}
    (registerA : RegisterFn α) (applyA : ApplyFn α) (actorA : α)
    (pA : TransferAgreementProof)
    (registerB : RegisterFn α) (applyB : ApplyFn α) (actorB : α)
    (pB : TransferAgreementProof) :
    (∃ ops, (apply_write_payment_traced registerA applyA actorA pA).snd =
        TraceEntry.lockAcquire :: ops ++ [TraceEntry.lockRelease]
      ∧ ∀ x ∈ ops, x ≠ TraceEntry.lockAcquire ∧ x ≠ TraceEntry.lockRelease)
    ∧ ∀ z, Interleaving
        (tagTrace true (apply_write_payment_traced registerA applyA actorA pA).snd)
        (tagTrace false (apply_write_payment_traced registerB applyB actorB pB).snd)
        z →
      lockValid none z = true →
      z = tagTrace true (apply_write_payment_traced registerA applyA actorA pA).snd
          ++ tagTrace false (apply_write_payment_traced registerB applyB actorB pB).snd
      ∨ z = tagTrace false (apply_write_payment_traced registerB applyB actorB pB).snd
          ++ tagTrace true (apply_write_payment_traced registerA applyA actorA pA).snd := by
  rcases apply_write_payment_trace_shape registerA applyA actorA pA with
    ⟨ops1, hshape1, hops1⟩
  refine ⟨⟨ops1, hshape1, hops1⟩, ?_⟩
  rcases apply_write_payment_trace_shape registerB applyB actorB pB with
    ⟨ops2, hshape2, hops2⟩
  intro z hint hv
  rw [hshape1, hshape2] at hint ⊢
  unfold tagTrace at hint ⊢
  simp only [List.map_cons, List.map_append, List.map_nil] at hint ⊢
  cases hint with
  | left x h1 =>
      simp only [lockValid] at hv
      rcases interleaving_absorb true ops1 []
          ((false, TraceEntry.lockAcquire) ::
            (List.map (fun e => (false, e)) ops2 ++ [(false, TraceEntry.lockRelease)]))
          _ hops1 (Or.inr ⟨false, _, rfl⟩) h1 hv with ⟨z1, hz, hintz, hvz⟩
      have hz1 := interleaving_nil_left hintz rfl
      left
      simp [hz, hz1]
  | right y h1 =>
      simp only [lockValid] at hv
      simp only [List.append_eq] at h1
      rcases interleaving_absorb false ops2 []
          ((true, TraceEntry.lockAcquire) ::
            (List.map (fun e => (true, e)) ops1 ++ [(true, TraceEntry.lockRelease)]))
          _ hops2 (Or.inr ⟨true, _, rfl⟩) (interleaving_symm h1) hv with
        ⟨z1, hz, hintz, hvz⟩
      have hz1 := interleaving_nil_left hintz rfl
      right
      simp [hz, hz1]

/-- Witness for claim C3: a concrete lock-respecting schedule of two
invocations of the write path on the modelled actor is the serial one, so the
serialisation disjunction of the claim holds of it. -/
theorem write_payment_lock_critical_section_witness :
    tagTrace true (apply_write_payment_traced TransferActor.register
        TransferActor.apply actorScenarioB proofScenarioB).snd ++
      tagTrace false (apply_write_payment_traced TransferActor.register
        TransferActor.apply freshActor proofScenarioB).snd =
      tagTrace true (apply_write_payment_traced TransferActor.register
        TransferActor.apply actorScenarioB proofScenarioB).snd ++
      tagTrace false (apply_write_payment_traced TransferActor.register
        TransferActor.apply freshActor proofScenarioB).snd
    ∨ tagTrace true (apply_write_payment_traced TransferActor.register
        TransferActor.apply actorScenarioB proofScenarioB).snd ++
      tagTrace false (apply_write_payment_traced TransferActor.register
        TransferActor.apply freshActor proofScenarioB).snd =
      tagTrace false (apply_write_payment_traced TransferActor.register
        TransferActor.apply freshActor proofScenarioB).snd ++
      tagTrace true (apply_write_payment_traced TransferActor.register
        TransferActor.apply actorScenarioB proofScenarioB).snd :=
  (write_payment_lock_critical_section TransferActor.register
      TransferActor.apply actorScenarioB proofScenarioB TransferActor.register
      TransferActor.apply freshActor proofScenarioB).2 _
    (interleaving_append _ _) (by decide)

/-- Unfolding of the modelled `apply` on a registration event. -/
theorem transferActor_apply_registration (a : TransferActor) (re : RegisterEvent) :
    TransferActor.apply a (ActorEvent.TransferRegistrationSent re) =
      if re.transfer_proof.seq = a.seqNum + 1 then
        Except.ok ⟨a.balance - re.transfer_proof.amount, re.transfer_proof.seq⟩
      else Except.error (Error.Transfer TransfersError.OperationOutOfOrder) := rfl

/-- Unfolding of the modelled `apply` on a synchronisation event. -/
theorem transferActor_apply_synched (a : TransferActor) (b s : Nat) :
    TransferActor.apply a (ActorEvent.TransfersSynched b s) =
      Except.error (Error.Transfer TransfersError.OperationOutOfOrder) := rfl

/-- Each successful `apply` on the modelled actor advances the sequence
number to the immediate successor of the previous one. -/
theorem transferActor_apply_seq : ∀ {a a1 : TransferActor} {ev : ActorEvent},
    TransferActor.apply a ev = Except.ok a1 → a1.seqNum = a.seqNum + 1 := by
  intro a a1 ev h
  rcases ev with re | ⟨b, s⟩
  · rw [transferActor_apply_registration] at h
    split_ifs at h with hs
    · injection h with h2
      rw [← h2]
      simpa using hs
  · rw [transferActor_apply_synched] at h
    simp at h

/-- A successful chain of `apply` calls advances the sequence number by
exactly the number of events applied: no gaps, no reordering. -/
theorem applyAll_seqNum : ∀ (evs : List ActorEvent) (a a1 : TransferActor),
    applyAll a evs = Except.ok a1 → a1.seqNum = a.seqNum + evs.length := by
  intro evs
  induction evs with
  | nil =>
      intro a a1 h
      unfold applyAll at h
      injection h with h2
      rw [← h2]
      simp
  | cons ev evs ih =>
      intro a a1 h
      unfold applyAll at h
      rcases ha : a.apply ev with e | a2
      · rw [ha] at h; simp at h
      · rw [ha] at h
        have h2 := ih a2 a1 h
        have h3 := transferActor_apply_seq ha
        rw [h2, h3]
        simp only [List.length_cons]
        omega

/-- Claim C5: on the modelled local actor, successful `apply` calls produce
strictly increasing, gap-free sequence numbers: each success advances the
sequence number to the immediate successor, an event whose sequence number is
not the immediate successor is rejected with an ordering error (never
silently skipped), and a successful chain of `n` applies advances the
sequence number by exactly `n`. -/
theorem local_actor_seq_strictly_increasing (a : TransferActor) :
    (∀ ev a1, TransferActor.apply a ev = Except.ok a1 →
      a1.seqNum = a.seqNum + 1)
    ∧ (∀ re, re.transfer_proof.seq ≠ a.seqNum + 1 →
        TransferActor.apply a (ActorEvent.TransferRegistrationSent re) =
          Except.error (Error.Transfer TransfersError.OperationOutOfOrder))
    ∧ (∀ evs a1, applyAll a evs = Except.ok a1 →
        a1.seqNum = a.seqNum + evs.length) := by
  refine ⟨fun ev a1 h => transferActor_apply_seq h, ?_,
    fun evs a1 h => applyAll_seqNum evs a a1 h⟩
  intro re hre
  rw [transferActor_apply_registration, if_neg hre]

/-- Witness for claim C5: applying the Scenario B registration event to the
Scenario B actor advances the sequence number from 0 to 1. -/
theorem local_actor_seq_strictly_increasing_witness :
    (⟨999, 1⟩ : TransferActor).seqNum = actorScenarioB.seqNum + 1 :=
  (local_actor_seq_strictly_increasing actorScenarioB).1
    (ActorEvent.TransferRegistrationSent ⟨proofScenarioB⟩) ⟨999, 1⟩ (by decide)

/-- Claim C6: once a proof has been registered and its event applied, a
second `register` with the same proof returns `None` (leaving the actor state
unchanged), so a repeated `apply_write_payment_to_local_actor` with the same
proof fails with `NoTransferEventsForLocalActor` and causes no second state
change. -/
theorem register_replay_returns_none (a a1 a2 : TransferActor)
    (p : TransferAgreementProof) (re : RegisterEvent)
    (hreg : TransferActor.register a p = Except.ok (some re, a1))
    (happ : TransferActor.apply a1 (ActorEvent.TransferRegistrationSent re) =
      Except.ok a2) :
    TransferActor.register a2 p = Except.ok (none, a2)
    ∧ apply_write_payment_to_local_actor TransferActor.register
        TransferActor.apply a2 p =
      Except.error Error.NoTransferEventsForLocalActor := by
  have hfacts : p.valid ≠ false ∧ p.seq = a.seqNum + 1 ∧ re = ⟨p⟩ ∧ a1 = a := by
    unfold TransferActor.register at hreg
    by_cases hv : p.valid = false
    · rw [if_pos hv] at hreg
      simp at hreg
    · rw [if_neg hv] at hreg
      by_cases hs : p.seq = a.seqNum + 1
      · rw [if_pos hs] at hreg
        simp only [Except.ok.injEq, Prod.mk.injEq, Option.some.injEq] at hreg
        exact ⟨hv, hs, hreg.1.symm, hreg.2.symm⟩
      · rw [if_neg hs] at hreg
        simp at hreg
  rcases hfacts with ⟨hv, hs, rfl, rfl⟩
  have hseq2 : a2.seqNum = p.seq := by
    have h5 := transferActor_apply_seq happ
    rw [h5, hs]
  have hc1 : TransferActor.register a2 p = Except.ok (none, a2) := by
    unfold TransferActor.register
    rw [if_neg hv, if_neg (by omega)]
  refine ⟨hc1, ?_⟩
  unfold apply_write_payment_to_local_actor
  rw [hc1]

/-- Witness for claim C6: after the Scenario B proof is registered and
applied (balance 1000 becomes 999, sequence 0 becomes 1), a replay of the
same proof registers to `None` and the write path reports
`NoTransferEventsForLocalActor`. -/
theorem register_replay_returns_none_witness :
    TransferActor.register (⟨999, 1⟩ : TransferActor) proofScenarioB =
        Except.ok (none, (⟨999, 1⟩ : TransferActor))
    ∧ apply_write_payment_to_local_actor TransferActor.register
        TransferActor.apply (⟨999, 1⟩ : TransferActor) proofScenarioB =
      Except.error Error.NoTransferEventsForLocalActor :=
  register_replay_returns_none actorScenarioB actorScenarioB ⟨999, 1⟩
    proofScenarioB ⟨proofScenarioB⟩ (by decide) (by decide)

/-- Claim C4: a freshly created client has balance zero, so a funded write of
any positive cost fails with `InsufficientBalance` and the list of performed
data writes is empty: the condition is detected at the debit request, before
any data is written. -/
theorem zero_balance_write_rejected (data : SequenceData) (cost : Nat)
    (hc : 0 < cost) :
    (pay_and_write_sequence_to_network freshActor cost data).fst =
      Except.error (Error.Transfer TransfersError.InsufficientBalance)
    ∧ (pay_and_write_sequence_to_network freshActor cost data).snd = [] := by
  unfold pay_and_write_sequence_to_network request_debit_proof
  have hb : freshActor.balance = 0 := rfl
  rw [hb, if_neg (by omega)]
  exact ⟨rfl, rfl⟩

/-- Witness for claim C4: a debit of 1 unit against the fresh zero-balance
client is rejected with `InsufficientBalance` and nothing is written. -/
theorem zero_balance_write_rejected_witness :
    (pay_and_write_sequence_to_network freshActor 1 sampleSequenceData).fst =
      Except.error (Error.Transfer TransfersError.InsufficientBalance)
    ∧ (pay_and_write_sequence_to_network freshActor 1 sampleSequenceData).snd
      = [] :=
  zero_balance_write_rejected sampleSequenceData 1 (by decide)

/-- Any coordinator path ending in `PaidWriteAuthorized` either starts there
or passes through `Applied`: the only transition into the terminal success
state is `authorizeWrite` from `Applied`. -/
theorem coordpath_applied_mem : ∀ {s u : CoordState} {l : List CoordState},
    CoordPath s u l → u = CoordState.PaidWriteAuthorized →
      s = CoordState.PaidWriteAuthorized ∨ CoordState.Applied ∈ l := by
  intro s u l h
  induction h with
  | refl s => intro hu; exact Or.inl hu
  | step hstep hpath ih =>
      intro hu
      rcases ih hu with h1 | h2
      · subst h1
        cases hstep
        exact Or.inr (by simp)
      · exact Or.inr (List.mem_cons_of_mem _ h2)

/-- Claim C7: in the Write-Payment Coordinator state machine the data-write
step is only reachable from `PaidWriteAuthorized`: every path from `Idle` to
`PaidWriteAuthorized` passes through a successful `Applied` transition, the
only step into `PaidWriteAuthorized` is from `Applied`, `Failed` states have
no outgoing transitions (the originating error is surfaced without attempting
the write), and the write is allowed exactly in `PaidWriteAuthorized`. -/
theorem coordinator_no_write_without_payment (l : List CoordState)
    (h : CoordPath CoordState.Idle CoordState.PaidWriteAuthorized l) :
    CoordState.Applied ∈ l
    ∧ (∀ s, CoordStep s CoordState.PaidWriteAuthorized →
        s = CoordState.Applied)
    ∧ (∀ e s, ¬ CoordStep (CoordState.Failed e) s)
    ∧ (∀ s, writeAllowed s = true ↔ s = CoordState.PaidWriteAuthorized) := by
  refine ⟨?_, ?_, ?_, ?_⟩
  · rcases coordpath_applied_mem h rfl with h1 | h2
    · simp at h1
    · exact h2
  · intro s hstep
    cases hstep
    rfl
  · intro e s hstep
    cases hstep
  · intro s
    cases s <;> simp [writeAllowed]

/-- Witness for claim C7: the nominal success path of a write attempt visits
`Applied` before reaching `PaidWriteAuthorized`. -/
theorem coordinator_no_write_without_payment_witness :
    CoordState.Applied ∈ [CoordState.Idle, CoordState.DebitRequested,
      CoordState.ProofReceived, CoordState.Registered, CoordState.Applied,
      CoordState.PaidWriteAuthorized] :=
  (coordinator_no_write_without_payment _
    (CoordPath.step CoordStep.requestDebit
      (CoordPath.step CoordStep.receiveProof
        (CoordPath.step CoordStep.registerSome
          (CoordPath.step CoordStep.applySuccess
            (CoordPath.step CoordStep.authorizeWrite
              (CoordPath.refl CoordState.PaidWriteAuthorized))))))).1

/-- Claim C10: whenever a stress-test put helper succeeds, the get performed
right after the put returned data equal to the data that was put (the
round-trip equality is asserted after each put, for immutable chunks and
mutable records alike). -/
theorem stress_test_put_get_roundtrip {net : Type} (putI : PutIDataFn net)
    (getI : GetIDataFn net) (putM : PutMDataFn net) (getM : GetMDataShellFn net)
    (n0 : net) :
    (∀ d n1 r, put_idata putI getI n0 d = Except.ok (n1, r) →
      r = d ∧ getI n1 d.address = Except.ok d)
    ∧ (∀ d n1 r, put_mdata putM getM n0 d = Except.ok (n1, r) →
      r = d ∧ getM n1 d.name d.tag = Except.ok d) := by
  constructor
  · intro d n1 r h
    unfold put_idata at h
    rcases hp : putI n0 d with e | n2
    · rw [hp] at h
      simp at h
    · rw [hp] at h
      have h2 : (match getI n2 d.address with
          | Except.error e => Except.error (StressTestError.core e)
          | Except.ok retrieved_data =>
              if d = retrieved_data then Except.ok (n2, retrieved_data)
              else Except.error StressTestError.assertionFailed) =
          Except.ok (n1, r) := h
      rcases hg : getI n2 d.address with e | rd
      · rw [hg] at h2
        simp at h2
      · rw [hg] at h2
        have h3 : (if d = rd then
              (Except.ok (n2, rd) : Except StressTestError (net × IData))
            else Except.error StressTestError.assertionFailed) =
            Except.ok (n1, r) := h2
        split_ifs at h3 with heq
        · simp only [Except.ok.injEq, Prod.mk.injEq] at h3
          rcases h3 with ⟨rfl, rfl⟩
          exact ⟨heq.symm, by rw [hg, heq]⟩
  · intro d n1 r h
    unfold put_mdata at h
    rcases hp : putM n0 d with e | n2
    · rw [hp] at h
      simp at h
    · rw [hp] at h
      have h2 : (match getM n2 d.name d.tag with
          | Except.error e => Except.error (StressTestError.core e)
          | Except.ok retrieved_data =>
              if d = retrieved_data then Except.ok (n2, retrieved_data)
              else Except.error StressTestError.assertionFailed) =
          Except.ok (n1, r) := h
      rcases hg : getM n2 d.name d.tag with e | rd
      · rw [hg] at h2
        simp at h2
      · rw [hg] at h2
        have h3 : (if d = rd then
              (Except.ok (n2, rd) : Except StressTestError (net × SeqMutableData))
            else Except.error StressTestError.assertionFailed) =
            Except.ok (n1, r) := h2
        split_ifs at h3 with heq
        · simp only [Except.ok.injEq, Prod.mk.injEq] at h3
          rcases h3 with ⟨rfl, rfl⟩
          exact ⟨heq.symm, by rw [hg, heq]⟩

/-- Witness for claim C10: on the two-slot network, putting a concrete chunk
succeeds and the claim yields the round-trip equality for it. -/
theorem stress_test_put_get_roundtrip_witness :
    sampleIData = sampleIData ∧
      slotGetIData (some sampleIData, none) sampleIData.address =
        Except.ok sampleIData :=
  (stress_test_put_get_roundtrip slotPutIData slotGetIData slotPutMData
      slotGetMDataShell (none, none)).1 sampleIData (some sampleIData, none)
    sampleIData (by decide)
